import Mathlib

/-!
Shallow embedding of the Plasso/flexkit-go client library.

Sources embedded:
  * `src/flexkit/flexkit.go`   (package `flexkit`)        -> namespace `flexkit`
  * `src/unnamed/part_000`, second document (an older copy of the
    `flexkit` package with a different `sendRequest`, a stubbed
    `GetData` and an unexported `subscriptionFor` field)    -> namespace `flexkitVariant`
  * `src/members.go`           (package `plasso`)          -> namespace `plasso`

Modelling conventions:
  * JSON documents are modelled by the inductive `Json` (a tree of
    null / bool / integer / string / array / object values).  The
    repository only ever marshals strings, string maps, slices of
    string structs and small integers, so restricting JSON numbers to
    `Int` loses nothing that the code exercises.
  * Go `encoding/json` marshals a struct to an object holding its
    EXPORTED fields, in declaration order, under their tag names;
    unexported fields are skipped even when they carry a json tag.
    This language rule is embedded once, in `goMarshalFields`, driven
    by per-field `exported` flags copied from the Go declarations.
  * `encoding/json` unmarshalling into the concrete response structs is
    embedded per struct: a missing key leaves the zero value, a JSON
    null leaves the zero value, a wrong-typed value is an error, a
    top-level value of the wrong shape is an error.  (Go also matches
    keys case-insensitively as a fallback and reports the error after
    filling the other fields; no claim depends on those refinements.)
    Duplicate keys follow the decoder: the last occurrence wins.
  * The network is an oracle: each operation takes an `HttpResult`
    describing what the single outbound HTTP call did (transport
    failure, body-read failure, or a response with a status code and a
    body).  A body is a `BodyBytes`: the raw bytes as a string together
    with their JSON parse (`none` when the bytes are not valid JSON).
  * The HTTP request each operation builds (method, URL, Content-Type
    header, marshalled body, and the client timeout configured for the
    call, in seconds) is returned alongside the result so that
    theorems can speak about what was sent.
  * `http.NewRequest` can only fail on an invalid method or URL; all
    methods and URLs in the repository are constant and valid, so that
    branch is dead and is not modelled.  `json.Marshal` cannot fail on
    the request types of this repository (strings, string slices and
    structs thereof), so the marshal-error branch is dead as well; the
    `GoError.marshalFailure` constructor exists only to keep the error
    taxonomy of the source visible.
-/

inductive Json where
  | null
  | bool (b : Bool)
  | num (n : Int)
  | str (s : String)
  | arr (elems : List Json)
  | obj (fields : List (String × Json))
deriving Repr

/-- Last-wins association lookup, matching the Go JSON decoder on
duplicate object keys. -/
def lookupLast (fs : List (String × Json)) (key : String) : Option Json :=
  fs.reverse.lookup key

/-- Field lookup inside a JSON object; `none` on non-objects. -/
def Json.lookupField (j : Json) (key : String) : Option Json :=
  match j with
  | .obj fs => lookupLast fs key
  | _ => none

/-- The keys of a JSON object, in emission order. -/
def Json.keys : Json → List String
  | .obj fs => fs.map Prod.fst
  | _ => []

/-- One field of a Go struct as seen by `encoding/json`: its json tag,
whether the Go field is exported, and its marshalled value. -/
structure GoField where
  tag : String
  exported : Bool
  value : Json

/-- Go `json.Marshal` on a struct: exported fields only, declaration
order, keyed by json tag. -/
def goMarshalFields (fs : List GoField) : Json :=
  .obj ((fs.filter (·.exported)).map fun f => (f.tag, f.value))

/-- Response body bytes paired with their JSON parse (`none` when the
bytes are not a valid JSON document). -/
structure BodyBytes where
  raw : String
  json : Option Json

/-- The errors the library surfaces (Go `error` values). -/
inductive GoError where
  | marshalFailure (msg : String)
  | transport (msg : String)
  | readBody (msg : String)
  | statusError (msg : String)
  | unmarshal (msg : String)
deriving Repr, DecidableEq

/-- What the single outbound HTTP call of an operation did. -/
inductive HttpResult where
  | transportError (msg : String)
  | readError (msg : String)
  | response (status : Nat) (body : BodyBytes)

/-- The request an operation constructed:  method, URL, the value of
the Content-Type header, the marshalled body, and the timeout (in
seconds) configured on the `http.Client` used for the call. -/
structure HttpRequest where
  method : String
  url : String
  contentType : String
  body : Json
  timeoutSeconds : Nat

/-- Result of `sendRequest`, mirroring its three `return` shapes:
`(nil, err)`, `(responseBody, err)` and `(responseBody, nil)`. -/
inductive SendOutcome where
  | fail (req : HttpRequest) (e : GoError)
  | failWithBody (req : HttpRequest) (body : BodyBytes) (e : GoError)
  | success (req : HttpRequest) (body : BodyBytes)

def SendOutcome.request : SendOutcome → HttpRequest
  | .fail req _ => req
  | .failWithBody req _ _ => req
  | .success req _ => req

def SendOutcome.errorOut : SendOutcome → Option GoError
  | .fail _ e => some e
  | .failWithBody _ _ e => some e
  | .success _ _ => none

/-- Result of an operation that returns a value and an error
(for example `Login`, which returns `(*Member, error)`). -/
structure CallResult (α : Type) where
  request : HttpRequest
  value : Option α
  error : Option GoError

/-- Result of an operation that returns only an error. -/
structure ProcResult where
  request : HttpRequest
  error : Option GoError

/-- Unmarshal a response body: invalid JSON bytes are a decode error,
otherwise defer to the given struct decoder. -/
def unmarshalBody (un : Json → Except String α) (b : BodyBytes) : Except String α :=
  match b.json with
  | none => .error ("invalid character in " ++ b.raw)
  | some j => un j

def failedE : Except String α → Bool
  | .error _ => true
  | .ok _ => false

/-- Go string field decode: absent or null keeps the zero value "",
a string sets it, anything else is a type error. -/
def getStringField (fs : List (String × Json)) (key : String) : Except String String :=
  match lookupLast fs key with
  | none => .ok ""
  | some .null => .ok ""
  | some (.str s) => .ok s
  | some _ => .error ("json: cannot unmarshal into string field " ++ key)

/-- Go nested-struct field decode: absent keeps the zero value,
otherwise defer to the field decoder (which handles null itself). -/
def getStructField (fs : List (String × Json)) (key : String)
    (un : Json → Except String α) (zero : α) : Except String α :=
  match lookupLast fs key with
  | none => .ok zero
  | some j => un j

namespace flexkit

-- const domain string = "https://plasso.com"
def domain : String := "https://plasso.com"

-- The getMember GraphQL query (a Go raw-string constant; reproduced
-- with explicit escapes).
def getMemberQuery : String :=
  "\nquery getMember($token: String) \x7b\n  member(token: $token) \x7b\n  \tid,\n    name,\n    email,\n    ccType,\n    ccLast4,\n    shippingInfo \x7b\n      name\n      address\n      city\n      state\n      zip\n      country\n    \x7d,\n    dataFields \x7b\n      id,\n      value\n    \x7d,\n    plan \x7b\n    \talias\n    \x7d\n  \x7d\n\x7d"

-- type gqlQuery struct { Query string; Variables map[string]string }
-- Marshalled with fields in declaration order.  (Go marshals a
-- map[string]string with its keys sorted; every call site passes a
-- single-entry map, so list order is immaterial.)
def gqlQueryMarshal (query : String) (vars : List (String × String)) : Json :=
  .obj [("query", .str query),
        ("variables", .obj (vars.map fun p => (p.1, .str p.2)))]

-- type LoginRequest struct
structure LoginRequest where
  PublicKey : String
  Email : String
  Password : String
deriving Repr, DecidableEq

def LoginRequest.marshal (r : LoginRequest) : Json :=
  goMarshalFields
    [⟨"public_key", true, .str r.PublicKey⟩,
     ⟨"email", true, .str r.Email⟩,
     ⟨"password", true, .str r.Password⟩]

-- type Product struct
structure Product where
  Id : String
  Qty : String
  Amount : String
deriving Repr, DecidableEq

def Product.marshal (p : Product) : Json :=
  goMarshalFields
    [⟨"id", true, .str p.Id⟩,
     ⟨"qty", true, .str p.Qty⟩,
     ⟨"amount", true, .str p.Amount⟩]

-- type DataItem struct
structure DataItem where
  Id : String
  Value : String
deriving Repr, DecidableEq

def DataItem.marshal (d : DataItem) : Json :=
  goMarshalFields
    [⟨"id", true, .str d.Id⟩,
     ⟨"value", true, .str d.Value⟩]

-- type PaymentRequest struct
structure PaymentRequest where
  PublicKey : String
  Token : String
  Products : List Product
  BillingAddress : String
  BillingCity : String
  BillingState : String
  BillingZip : String
  BillingCountry : String
  ShippingName : String
  ShippingAddress : String
  ShippingCity : String
  ShippingState : String
  ShippingZip : String
  ShippingCountry : String
  ShippingOptions : String
  DataFields : List DataItem
  Coupon : String
  Email : String
  Name : String
deriving Repr, DecidableEq

def PaymentRequest.marshal (r : PaymentRequest) : Json :=
  goMarshalFields
    [⟨"public_key", true, .str r.PublicKey⟩,
     ⟨"token", true, .str r.Token⟩,
     ⟨"products", true, .arr (r.Products.map Product.marshal)⟩,
     ⟨"billing_address", true, .str r.BillingAddress⟩,
     ⟨"billing_city", true, .str r.BillingCity⟩,
     ⟨"billing_state", true, .str r.BillingState⟩,
     ⟨"billing_zip", true, .str r.BillingZip⟩,
     ⟨"billing_country", true, .str r.BillingCountry⟩,
     ⟨"shipping_name", true, .str r.ShippingName⟩,
     ⟨"shipping_address", true, .str r.ShippingAddress⟩,
     ⟨"shipping_city", true, .str r.ShippingCity⟩,
     ⟨"shipping_state", true, .str r.ShippingState⟩,
     ⟨"shipping_zip", true, .str r.ShippingZip⟩,
     ⟨"shipping_country", true, .str r.ShippingCountry⟩,
     ⟨"shipping_options", true, .str r.ShippingOptions⟩,
     ⟨"data_fields", true, .arr (r.DataFields.map DataItem.marshal)⟩,
     ⟨"coupon", true, .str r.Coupon⟩,
     ⟨"email", true, .str r.Email⟩,
     ⟨"name", true, .str r.Name⟩]

-- type SubscriptionRequest struct  (field SubscriptionFor is exported
-- in src/flexkit/flexkit.go)
structure SubscriptionRequest where
  SubscriptionFor : String
  Email : String
  Name : String
  Password : String
  Plan : String
  Token : String
  BillingAddress : String
  BillingCity : String
  BillingState : String
  BillingZip : String
  BillingCountry : String
  ShippingName : String
  ShippingAddress : String
  ShippingCity : String
  ShippingState : String
  ShippingZip : String
  ShippingCountry : String
  ShippingOptions : String
  DataFields : List DataItem
  PublicKey : String
deriving Repr, DecidableEq

def SubscriptionRequest.marshal (r : SubscriptionRequest) : Json :=
  goMarshalFields
    [⟨"subscription_for", true, .str r.SubscriptionFor⟩,
     ⟨"email", true, .str r.Email⟩,
     ⟨"name", true, .str r.Name⟩,
     ⟨"password", true, .str r.Password⟩,
     ⟨"plan", true, .str r.Plan⟩,
     ⟨"token", true, .str r.Token⟩,
     ⟨"billing_address", true, .str r.BillingAddress⟩,
     ⟨"billing_city", true, .str r.BillingCity⟩,
     ⟨"billing_state", true, .str r.BillingState⟩,
     ⟨"billing_zip", true, .str r.BillingZip⟩,
     ⟨"billing_country", true, .str r.BillingCountry⟩,
     ⟨"shipping_name", true, .str r.ShippingName⟩,
     ⟨"shipping_address", true, .str r.ShippingAddress⟩,
     ⟨"shipping_city", true, .str r.ShippingCity⟩,
     ⟨"shipping_state", true, .str r.ShippingState⟩,
     ⟨"shipping_zip", true, .str r.ShippingZip⟩,
     ⟨"shipping_country", true, .str r.ShippingCountry⟩,
     ⟨"shipping_options", true, .str r.ShippingOptions⟩,
     ⟨"data_fields", true, .arr (r.DataFields.map DataItem.marshal)⟩,
     ⟨"public_key", true, .str r.PublicKey⟩]

-- type tokenResponse struct { Token string `json:"token"` }
structure tokenResponse where
  Token : String
deriving Repr, DecidableEq

def tokenResponse.unmarshal : Json → Except String tokenResponse
  | .null => .ok ⟨""⟩
  | .obj fs => do
      let t ← getStringField fs "token"
      pure ⟨t⟩
  | _ => .error "json: cannot unmarshal into tokenResponse"

def tokenResponse.unmarshalBytes : BodyBytes → Except String tokenResponse :=
  unmarshalBody tokenResponse.unmarshal

-- type CreditCardRequest struct.  Go fields Last4, Type, PlanId and
-- Token are exported; memberToken (tag "pltoken") is unexported.
-- The Go field Type is spelled TypeField here because Type is taken
-- in Lean.
structure CreditCardRequest where
  Last4 : String
  TypeField : String
  PlanId : String
  Token : String
  memberToken : String
deriving Repr, DecidableEq

def CreditCardRequest.marshal (r : CreditCardRequest) : Json :=
  goMarshalFields
    [⟨"cc_last_4", true, .str r.Last4⟩,
     ⟨"cc_type", true, .str r.TypeField⟩,
     ⟨"plan", true, .str r.PlanId⟩,
     ⟨"token", true, .str r.Token⟩,
     ⟨"pltoken", false, .str r.memberToken⟩]

-- type SettingsRequest struct.  The token field (tag "pltoken") is
-- unexported in Go; the others are exported.
structure SettingsRequest where
  Email : String
  Name : String
  ShippingName : String
  ShippingAddress : String
  ShippingCity : String
  ShippingState : String
  ShippingZip : String
  ShippingCountry : String
  ShippingOptions : String
  token : String
deriving Repr, DecidableEq

def SettingsRequest.marshal (r : SettingsRequest) : Json :=
  goMarshalFields
    [⟨"email", true, .str r.Email⟩,
     ⟨"name", true, .str r.Name⟩,
     ⟨"shipping_name", true, .str r.ShippingName⟩,
     ⟨"shipping_address", true, .str r.ShippingAddress⟩,
     ⟨"shipping_city", true, .str r.ShippingCity⟩,
     ⟨"shipping_state", true, .str r.ShippingState⟩,
     ⟨"shipping_zip", true, .str r.ShippingZip⟩,
     ⟨"shipping_country", true, .str r.ShippingCountry⟩,
     ⟨"shipping_options", true, .str r.ShippingOptions⟩,
     ⟨"pltoken", false, .str r.token⟩]

-- type Member struct
structure Member where
  PublicKey : String
  Token : String
deriving Repr, DecidableEq

-- type MemberData struct
structure MemberData where
  Id : String
  Email : String
  Name : String
  CreditCardLast4 : String
  CreditCardType : String
  ShippingName : String
  ShippingAddress : String
  ShippingCity : String
  ShippingState : String
  ShippingZip : String
  ShippingCountry : String
  ShippingOptions : String
  DataFields : List DataItem
  Plan : String
deriving Repr, DecidableEq

-- type memberDataResponse struct, with its anonymous nested structs
-- named MDR* here.

structure MDRPlan where
  Alias : String
deriving Repr, DecidableEq

structure MDRShippingInfo where
  Name : String
  Address : String
  City : String
  State : String
  Zip : String
  Country : String
deriving Repr, DecidableEq

structure MDRMember where
  Id : String
  Name : String
  Email : String
  CcType : String
  CcLast4 : String
  Plan : MDRPlan
  ShippingInfo : MDRShippingInfo
  DataFields : List DataItem
deriving Repr, DecidableEq

structure MDRData where
  Member : MDRMember
deriving Repr, DecidableEq

structure memberDataResponse where
  Data : MDRData
deriving Repr, DecidableEq

def MDRPlan.unmarshal : Json → Except String MDRPlan
  | .null => .ok ⟨""⟩
  | .obj fs => do
      let a ← getStringField fs "alias"
      pure ⟨a⟩
  | _ => .error "json: cannot unmarshal into plan"

def MDRShippingInfo.unmarshal : Json → Except String MDRShippingInfo
  | .null => .ok ⟨"", "", "", "", "", ""⟩
  | .obj fs => do
      let n ← getStringField fs "name"
      let a ← getStringField fs "address"
      let c ← getStringField fs "city"
      let s ← getStringField fs "state"
      let z ← getStringField fs "zip"
      let co ← getStringField fs "country"
      pure ⟨n, a, c, s, z, co⟩
  | _ => .error "json: cannot unmarshal into shippingInfo"

def DataItem.unmarshal : Json → Except String DataItem
  | .null => .ok ⟨"", ""⟩
  | .obj fs => do
      let i ← getStringField fs "id"
      let v ← getStringField fs "value"
      pure ⟨i, v⟩
  | _ => .error "json: cannot unmarshal into DataItem"

def dataItemsUnmarshal : Json → Except String (List DataItem)
  | .null => .ok []
  | .arr xs => xs.mapM DataItem.unmarshal
  | _ => .error "json: cannot unmarshal into dataFields"

def MDRMember.unmarshal : Json → Except String MDRMember
  | .null => .ok ⟨"", "", "", "", "", ⟨""⟩, ⟨"", "", "", "", "", ""⟩, []⟩
  | .obj fs => do
      let i ← getStringField fs "id"
      let n ← getStringField fs "name"
      let e ← getStringField fs "email"
      let ct ← getStringField fs "ccType"
      let cl ← getStringField fs "ccLast4"
      let p ← getStructField fs "plan" MDRPlan.unmarshal ⟨""⟩
      let si ← getStructField fs "shippingInfo" MDRShippingInfo.unmarshal ⟨"", "", "", "", "", ""⟩
      let df ← getStructField fs "dataFields" dataItemsUnmarshal []
      pure ⟨i, n, e, ct, cl, p, si, df⟩
  | _ => .error "json: cannot unmarshal into member"

def MDRData.unmarshal : Json → Except String MDRData
  | .null => .ok ⟨⟨"", "", "", "", "", ⟨""⟩, ⟨"", "", "", "", "", ""⟩, []⟩⟩
  | .obj fs => do
      let m ← getStructField fs "member" MDRMember.unmarshal
        ⟨"", "", "", "", "", ⟨""⟩, ⟨"", "", "", "", "", ""⟩, []⟩
      pure ⟨m⟩
  | _ => .error "json: cannot unmarshal into data"

def memberDataResponse.unmarshal : Json → Except String memberDataResponse
  | .null => .ok ⟨⟨⟨"", "", "", "", "", ⟨""⟩, ⟨"", "", "", "", "", ""⟩, []⟩⟩⟩
  | .obj fs => do
      let d ← getStructField fs "data" MDRData.unmarshal
        ⟨⟨"", "", "", "", "", ⟨""⟩, ⟨"", "", "", "", "", ""⟩, []⟩⟩
      pure ⟨d⟩
  | _ => .error "json: cannot unmarshal into memberDataResponse"

def memberDataResponse.unmarshalBytes : BodyBytes → Except String memberDataResponse :=
  unmarshalBody memberDataResponse.unmarshal

/-- func sendRequest(kind string, path string, request interface\x7b\x7d)
([]byte, error).  Client timeout: 30 seconds.  Non-2xx statuses
(StatusCode < 200 || StatusCode > 299) return the body together with
an error whose text is Sprintf("%s %d %s %s", kind, status, url,
body). -/
def sendRequest (kind path : String) (request : Json) (o : HttpResult) : SendOutcome :=
  let url := domain ++ path
  let req : HttpRequest := ⟨kind, url, "application/json", request, 30⟩
  match o with
  | .transportError msg => .fail req (.transport msg)
  | .readError msg => .fail req (.readBody msg)
  | .response status b =>
    if status < 200 ∨ 299 < status then
      .failWithBody req b
        (.statusError (kind ++ " " ++ toString status ++ " " ++ url ++ " " ++ b.raw))
    else
      .success req b

/-- func graphQL(query string, variables map[string]string, response
interface\x7b\x7d) error.  Client timeout: 15 seconds.  POSTs to
domain/graphql and unmarshals the body into the caller-supplied
response value; the HTTP status code is never examined. -/
def graphQL (query : String) (vars : List (String × String))
    (unmarshalInto : Json → Except String α) (o : HttpResult) :
    HttpRequest × Except GoError α :=
  let url := domain ++ "/graphql"
  let req : HttpRequest := ⟨"POST", url, "application/json", gqlQueryMarshal query vars, 15⟩
  match o with
  | .transportError msg => (req, .error (.transport msg))
  | .readError msg => (req, .error (.readBody msg))
  | .response _status b =>
    match unmarshalBody unmarshalInto b with
    | .error msg => (req, .error (.unmarshal msg))
    | .ok a => (req, .ok a)

/-- func Login(request LoginRequest) (*Member, error). -/
def Login (request : LoginRequest) (o : HttpResult) : CallResult Member :=
  match sendRequest "POST" "/api/service/login" (LoginRequest.marshal request) o with
  | .fail req e => ⟨req, none, some e⟩
  | .failWithBody req _ e => ⟨req, none, some e⟩
  | .success req body =>
    match tokenResponse.unmarshalBytes body with
    | .error msg => ⟨req, none, some (.unmarshal msg)⟩
    | .ok r => ⟨req, some ⟨request.PublicKey, r.Token⟩, none⟩

/-- func (member *Member) GetData() (*MemberData, error).  The first
component of the result is the receiver after the call (the method
never writes through the pointer).  ShippingOptions is never assigned
and keeps the Go zero value "". -/
def Member.GetData (member : Member) (o : HttpResult) :
    Member × CallResult MemberData :=
  (member,
    match graphQL getMemberQuery [("token", member.Token)]
        memberDataResponse.unmarshal o with
    | (req, .error e) => ⟨req, none, some e⟩
    | (req, .ok response) =>
      ⟨req,
       some ⟨response.Data.Member.Id,
             response.Data.Member.Email,
             response.Data.Member.Name,
             response.Data.Member.CcLast4,
             response.Data.Member.CcType,
             response.Data.Member.ShippingInfo.Name,
             response.Data.Member.ShippingInfo.Address,
             response.Data.Member.ShippingInfo.City,
             response.Data.Member.ShippingInfo.State,
             response.Data.Member.ShippingInfo.Zip,
             response.Data.Member.ShippingInfo.Country,
             "",
             response.Data.Member.DataFields,
             response.Data.Member.Plan.Alias⟩,
       none⟩)

/-- func (member *Member) UpdateSettings(request SettingsRequest)
error.  The assignment request.token = member.Token mutates the
by-value parameter copy before it is marshalled. -/
def Member.UpdateSettings (member : Member) (request : SettingsRequest)
    (o : HttpResult) : Member × ProcResult :=
  (member,
    let request1 := { request with token := member.Token }
    match sendRequest "POST" "/api/services/user?action=settings"
        (SettingsRequest.marshal request1) o with
    | .fail req e => ⟨req, some e⟩
    | .failWithBody req _ e => ⟨req, some e⟩
    | .success req _ => ⟨req, none⟩)

/-- func (member *Member) UpdateCreditCard(request CreditCardRequest)
error.  The assignment request.memberToken = member.Token mutates the
by-value parameter copy before it is marshalled. -/
def Member.UpdateCreditCard (member : Member) (request : CreditCardRequest)
    (o : HttpResult) : Member × ProcResult :=
  (member,
    let request1 := { request with memberToken := member.Token }
    match sendRequest "POST" "/api/services/user?action=cc"
        (CreditCardRequest.marshal request1) o with
    | .fail req e => ⟨req, some e⟩
    | .failWithBody req _ e => ⟨req, some e⟩
    | .success req _ => ⟨req, none⟩)

/-- func CreatePayment(request PaymentRequest) error. -/
def CreatePayment (request : PaymentRequest) (o : HttpResult) : ProcResult :=
  match sendRequest "POST" "/api/payments" (PaymentRequest.marshal request) o with
  | .fail req e => ⟨req, some e⟩
  | .failWithBody req _ e => ⟨req, some e⟩
  | .success req _ => ⟨req, none⟩

/-- func CreateSubscription(request SubscriptionRequest) (*Member,
error).  The first statement overwrites request.SubscriptionFor with
"space". -/
def CreateSubscription (request : SubscriptionRequest) (o : HttpResult) :
    CallResult Member :=
  let request1 := { request with SubscriptionFor := "space" }
  match sendRequest "POST" "/api/subscriptions"
      (SubscriptionRequest.marshal request1) o with
  | .fail req e => ⟨req, none, some e⟩
  | .failWithBody req _ e => ⟨req, none, some e⟩
  | .success req body =>
    match tokenResponse.unmarshalBytes body with
    | .error msg => ⟨req, none, some (.unmarshal msg)⟩
    | .ok r => ⟨req, some ⟨request1.PublicKey, r.Token⟩, none⟩

/-- func (member *Member) Delete() error.  The request is the map
map[string]string with the single key token; Go marshals map keys in
sorted order. -/
def Member.Delete (member : Member) (o : HttpResult) : Member × ProcResult :=
  (member,
    match sendRequest "DELETE" "/api/service/user"
        (.obj [("token", .str member.Token)]) o with
    | .fail req e => ⟨req, some e⟩
    | .failWithBody req _ e => ⟨req, some e⟩
    | .success req _ => ⟨req, none⟩)

/-- func (member *Member) Logout() error.  The request map holds token
and public_key; Go marshals map keys in sorted order, public_key
before token.  The final return err returns nil there, since a
non-nil err was already returned in the branch above. -/
def Member.Logout (member : Member) (o : HttpResult) : Member × ProcResult :=
  (member,
    match sendRequest "POST" "/api/service/logout"
        (.obj [("public_key", .str member.PublicKey),
               ("token", .str member.Token)]) o with
    | .fail req e => ⟨req, some e⟩
    | .failWithBody req _ e => ⟨req, some e⟩
    | .success req _ => ⟨req, none⟩)

end flexkit

namespace flexkitVariant

/-!
The older copy of the flexkit package kept in `src/unnamed/part_000`
(second document).  Only the parts that claims refer to are embedded:
its `sendRequest`, which uses a 5-second client timeout and treats any
status in 200..300 as success (the error check is
StatusCode < 200 || StatusCode > 300), and its stubbed `GetData`.
-/

def domain : String := "https://plasso.com"

/-- func sendRequest of the variant file: 5-second timeout, error only
when StatusCode < 200 || StatusCode > 300, same Sprintf error text. -/
def sendRequest (kind path : String) (request : Json) (o : HttpResult) : SendOutcome :=
  let url := domain ++ path
  let req : HttpRequest := ⟨kind, url, "application/json", request, 5⟩
  match o with
  | .transportError msg => .fail req (.transport msg)
  | .readError msg => .fail req (.readBody msg)
  | .response status b =>
    if status < 200 ∨ 300 < status then
      .failWithBody req b
        (.statusError (kind ++ " " ++ toString status ++ " " ++ url ++ " " ++ b.raw))
    else
      .success req b

structure Member where
  PublicKey : String
  Token : String
deriving Repr, DecidableEq

/-- func (member *Member) GetData() (*MemberData, error) of the
variant file is a stub: it performs no HTTP call and returns nil, nil.
Its MemberData type is not needed by any claim, so the value side is
typed with the main package MemberData shape it would carry. -/
def Member.GetData (_member : Member) :
    Option flexkit.MemberData × Option GoError :=
  (none, none)

end flexkitVariant

namespace plasso

/-!
Embedding of `src/members.go` (package `plasso`).  Only `New` makes a
network call; `FromRequest`, `ToResponse`, `logout`, `redirect` and
`Protect` are stubs or operate on `http.ResponseWriter` machinery and
are not embedded.
-/

structure space where
  LogoutUrl : String
deriving Repr, DecidableEq

structure plassoSession where
  LoggedIn : Bool
  Token : String
  Id : String
  PlanId : Int
  Space : space
deriving Repr, DecidableEq

-- type gqlQuery struct { Query string `json:"query"` }
def gqlQueryMarshal (q : String) : Json := .obj [("query", .str q)]

structure GRSpace where
  Slug : String
  LogoutUrl : String
deriving Repr, DecidableEq

structure GRMember where
  Id : String
  PlanId : Int
  Space : GRSpace
deriving Repr, DecidableEq

structure GRData where
  Member : GRMember
deriving Repr, DecidableEq

structure gqlResponse where
  Data : GRData
deriving Repr, DecidableEq

/-- Go int32 field decode: absent or null keeps 0, an integer in int32
range sets it, anything else is an error. -/
def getInt32Field (fs : List (String × Json)) (key : String) : Except String Int :=
  match lookupLast fs key with
  | none => .ok 0
  | some .null => .ok 0
  | some (.num n) =>
      if -(2 ^ 31) ≤ n ∧ n < 2 ^ 31 then .ok n
      else .error ("json: number out of int32 range in field " ++ key)
  | some _ => .error ("json: cannot unmarshal into int32 field " ++ key)

def GRSpace.unmarshal : Json → Except String GRSpace
  | .null => .ok ⟨"", ""⟩
  | .obj fs => do
      let s ← getStringField fs "slug"
      let l ← getStringField fs "logoutUrl"
      pure ⟨s, l⟩
  | _ => .error "json: cannot unmarshal into space"

def GRMember.unmarshal : Json → Except String GRMember
  | .null => .ok ⟨"", 0, ⟨"", ""⟩⟩
  | .obj fs => do
      let i ← getStringField fs "id"
      let p ← getInt32Field fs "planId"
      let s ← getStructField fs "space" GRSpace.unmarshal ⟨"", ""⟩
      pure ⟨i, p, s⟩
  | _ => .error "json: cannot unmarshal into member"

def GRData.unmarshal : Json → Except String GRData
  | .null => .ok ⟨⟨"", 0, ⟨"", ""⟩⟩⟩
  | .obj fs => do
      let m ← getStructField fs "member" GRMember.unmarshal ⟨"", 0, ⟨"", ""⟩⟩
      pure ⟨m⟩
  | _ => .error "json: cannot unmarshal into data"

def gqlResponse.unmarshal : Json → Except String gqlResponse
  | .null => .ok ⟨⟨⟨"", 0, ⟨"", ""⟩⟩⟩⟩
  | .obj fs => do
      let d ← getStructField fs "data" GRData.unmarshal ⟨⟨"", 0, ⟨"", ""⟩⟩⟩
      pure ⟨d⟩
  | _ => .error "json: cannot unmarshal into gqlResponse"

/-- The Go template constant of New, a raw string containing literal
braces (escaped here). -/
def template : String :=
  "\x7bmember(token:\"\x7b\x7b.token\x7d\x7d\")\x7bid,planId,space\x7blogoutUrl\x7d\x7d\x7d"

/-- func New(token string) (*plasso, error).  Client timeout:
1 second.  Builds the query by strings.Replace on the template (one
occurrence exists, so replacing all occurrences coincides with Go
replacing the first), POSTs to https://api.plasso.com, and unmarshals
the body without looking at the status code. -/
def New (token : String) (o : HttpResult) : CallResult plassoSession :=
  let query := template.replace "\x7b\x7b.token\x7d\x7d" token
  let body := gqlQueryMarshal query
  let req : HttpRequest := ⟨"POST", "https://api.plasso.com", "application/json", body, 1⟩
  match o with
  | .transportError msg => ⟨req, none, some (.transport msg)⟩
  | .readError msg => ⟨req, none, some (.readBody msg)⟩
  | .response _status b =>
    match unmarshalBody gqlResponse.unmarshal b with
    | .error msg => ⟨req, none, some (.unmarshal msg)⟩
    | .ok r =>
      ⟨req,
       some ⟨true, token, r.Data.Member.Id, r.Data.Member.PlanId,
             ⟨r.Data.Member.Space.LogoutUrl⟩⟩,
       none⟩

end plasso

namespace flexkit

/-!
Outcome-characterization predicates used by the theorem statements:
they classify an `HttpResult` oracle value, so that error behaviour of
the operations can be stated as unconditional boolean equations.
-/

/-- The transport failed or the body could not be read. -/
def envFailure : HttpResult → Bool
  | .transportError _ => true
  | .readError _ => true
  | .response _ _ => false

/-- A response arrived whose status code is outside 200..299. -/
def non2xx : HttpResult → Bool
  | .response s _ => decide (s < 200) || decide (299 < s)
  | _ => false

/-- The conditions under which flexkit sendRequest returns an error. -/
def sendFailure (o : HttpResult) : Bool := envFailure o || non2xx o

/-- A response arrived whose body does not unmarshal as a
tokenResponse. -/
def tokenBodyBad : HttpResult → Bool
  | .response _ b => failedE (tokenResponse.unmarshalBytes b)
  | _ => false

/-- A response arrived whose body does not unmarshal as a
memberDataResponse. -/
def memberBodyBad : HttpResult → Bool
  | .response _ b => failedE (memberDataResponse.unmarshalBytes b)
  | _ => false

/-- Sample GraphQL member body used to instantiate the success-path
theorem for GetData. -/
def sampleMemberJson : Json :=
  .obj [("data", .obj [("member", .obj
    [("id", .str "m1"),
     ("name", .str "Ada"),
     ("email", .str "ada at example.com"),
     ("ccType", .str "visa"),
     ("ccLast4", .str "4242"),
     ("plan", .obj [("alias", .str "gold")]),
     ("shippingInfo", .obj
       [("name", .str "Ada L"),
        ("address", .str "1 Way"),
        ("city", .str "Springfield"),
        ("state", .str "IL"),
        ("zip", .str "62704"),
        ("country", .str "US")]),
     ("dataFields", .arr [.obj [("id", .str "f1"), ("value", .str "v1")]])])])]

def sampleMemberBody : BodyBytes := ⟨"sample member body", some sampleMemberJson⟩

def sampleMemberResp : memberDataResponse :=
  ⟨⟨⟨"m1", "Ada", "ada at example.com", "visa", "4242", ⟨"gold"⟩,
     ⟨"Ada L", "1 Way", "Springfield", "IL", "62704", "US"⟩,
     [⟨"f1", "v1"⟩]⟩⟩⟩

end flexkit

/-!
Helper lemmas shared by the claim theorems.
-/

namespace flexkit

theorem sendRequest_request (kind path : String) (b : Json) (o : HttpResult) :
    (sendRequest kind path b o).request
      = ⟨kind, domain ++ path, "application/json", b, 30⟩ := by
  cases o with
  | transportError m => rfl
  | readError m => rfl
  | response s bb =>
    simp only [sendRequest]
    split <;> rfl

theorem sendRequest_errorOut (kind path : String) (b : Json) (o : HttpResult) :
    (sendRequest kind path b o).errorOut.isSome = sendFailure o := by
  cases o with
  | transportError m => rfl
  | readError m => rfl
  | response s bb =>
    simp only [sendRequest, sendFailure, envFailure, non2xx, Bool.false_or]
    split
    · next hs =>
      have hb : (decide (s < 200) || decide (299 < s)) = true := by
        rcases hs with h | h <;> simp [h]
      simp [SendOutcome.errorOut, hb]
    · next hs =>
      push_neg at hs
      have hb : (decide (s < 200) || decide (299 < s)) = false := by
        simp only [Bool.or_eq_false_iff, decide_eq_false_iff_not]
        exact ⟨Nat.not_lt.mpr hs.1, Nat.not_lt.mpr hs.2⟩
      simp [SendOutcome.errorOut, hb]

theorem login_request (lr : LoginRequest) (o : HttpResult) :
    (Login lr o).request
      = ⟨"POST", domain ++ "/api/service/login", "application/json",
         LoginRequest.marshal lr, 30⟩ := by
  have h := sendRequest_request "POST" "/api/service/login" (LoginRequest.marshal lr) o
  cases hs : sendRequest "POST" "/api/service/login" (LoginRequest.marshal lr) o with
  | fail req e => rw [hs] at h; simpa [Login, hs, SendOutcome.request] using h
  | failWithBody req b e => rw [hs] at h; simpa [Login, hs, SendOutcome.request] using h
  | success req b =>
    rw [hs] at h
    cases hu : tokenResponse.unmarshalBytes b <;>
      simpa [Login, hs, hu, SendOutcome.request] using h

theorem getData_request (m : Member) (o : HttpResult) :
    ((m.GetData o).2).request
      = ⟨"POST", domain ++ "/graphql", "application/json",
         gqlQueryMarshal getMemberQuery [("token", m.Token)], 15⟩ := by
  cases o with
  | transportError msg => rfl
  | readError msg => rfl
  | response s bb =>
    simp only [Member.GetData, graphQL]
    cases hu : unmarshalBody memberDataResponse.unmarshal bb <;> simp [hu]

theorem updateSettings_request (m : Member) (sr : SettingsRequest) (o : HttpResult) :
    ((m.UpdateSettings sr o).2).request
      = ⟨"POST", domain ++ "/api/services/user?action=settings", "application/json",
         SettingsRequest.marshal { sr with token := m.Token }, 30⟩ := by
  have h := sendRequest_request "POST" "/api/services/user?action=settings"
    (SettingsRequest.marshal { sr with token := m.Token }) o
  cases hs : sendRequest "POST" "/api/services/user?action=settings"
      (SettingsRequest.marshal { sr with token := m.Token }) o <;>
    (rw [hs] at h; simpa [Member.UpdateSettings, hs, SendOutcome.request] using h)

theorem updateCreditCard_request (m : Member) (cr : CreditCardRequest) (o : HttpResult) :
    ((m.UpdateCreditCard cr o).2).request
      = ⟨"POST", domain ++ "/api/services/user?action=cc", "application/json",
         CreditCardRequest.marshal { cr with memberToken := m.Token }, 30⟩ := by
  have h := sendRequest_request "POST" "/api/services/user?action=cc"
    (CreditCardRequest.marshal { cr with memberToken := m.Token }) o
  cases hs : sendRequest "POST" "/api/services/user?action=cc"
      (CreditCardRequest.marshal { cr with memberToken := m.Token }) o <;>
    (rw [hs] at h; simpa [Member.UpdateCreditCard, hs, SendOutcome.request] using h)

theorem createPayment_request (pr : PaymentRequest) (o : HttpResult) :
    (CreatePayment pr o).request
      = ⟨"POST", domain ++ "/api/payments", "application/json",
         PaymentRequest.marshal pr, 30⟩ := by
  have h := sendRequest_request "POST" "/api/payments" (PaymentRequest.marshal pr) o
  cases hs : sendRequest "POST" "/api/payments" (PaymentRequest.marshal pr) o <;>
    (rw [hs] at h; simpa [CreatePayment, hs, SendOutcome.request] using h)

theorem createSubscription_request (sub : SubscriptionRequest) (o : HttpResult) :
    (CreateSubscription sub o).request
      = ⟨"POST", domain ++ "/api/subscriptions", "application/json",
         SubscriptionRequest.marshal { sub with SubscriptionFor := "space" }, 30⟩ := by
  have h := sendRequest_request "POST" "/api/subscriptions"
    (SubscriptionRequest.marshal { sub with SubscriptionFor := "space" }) o
  cases hs : sendRequest "POST" "/api/subscriptions"
      (SubscriptionRequest.marshal { sub with SubscriptionFor := "space" }) o with
  | fail req e => rw [hs] at h; simpa [CreateSubscription, hs, SendOutcome.request] using h
  | failWithBody req b e => rw [hs] at h; simpa [CreateSubscription, hs, SendOutcome.request] using h
  | success req b =>
    rw [hs] at h
    cases hu : tokenResponse.unmarshalBytes b <;>
      simpa [CreateSubscription, hs, hu, SendOutcome.request] using h

theorem delete_request (m : Member) (o : HttpResult) :
    ((m.Delete o).2).request
      = ⟨"DELETE", domain ++ "/api/service/user", "application/json",
         .obj [("token", .str m.Token)], 30⟩ := by
  have h := sendRequest_request "DELETE" "/api/service/user"
    (.obj [("token", .str m.Token)]) o
  cases hs : sendRequest "DELETE" "/api/service/user"
      (.obj [("token", .str m.Token)]) o <;>
    (rw [hs] at h; simpa [Member.Delete, hs, SendOutcome.request] using h)

theorem logout_request (m : Member) (o : HttpResult) :
    ((m.Logout o).2).request
      = ⟨"POST", domain ++ "/api/service/logout", "application/json",
         .obj [("public_key", .str m.PublicKey), ("token", .str m.Token)], 30⟩ := by
  have h := sendRequest_request "POST" "/api/service/logout"
    (.obj [("public_key", .str m.PublicKey), ("token", .str m.Token)]) o
  cases hs : sendRequest "POST" "/api/service/logout"
      (.obj [("public_key", .str m.PublicKey), ("token", .str m.Token)]) o <;>
    (rw [hs] at h; simpa [Member.Logout, hs, SendOutcome.request] using h)

theorem login_error (lr : LoginRequest) (o : HttpResult) :
    (Login lr o).error.isSome = (sendFailure o || tokenBodyBad o) := by
  cases o with
  | transportError m => rfl
  | readError m => rfl
  | response s bb =>
    simp only [sendFailure, envFailure, non2xx, tokenBodyBad, Bool.false_or]
    by_cases hs : s < 200 ∨ 299 < s
    · have hb : (decide (s < 200) || decide (299 < s)) = true := by
        rcases hs with h | h <;> simp [h]
      simp [Login, sendRequest, hs, hb]
    · have hb : (decide (s < 200) || decide (299 < s)) = false := by
        push_neg at hs
        simp only [Bool.or_eq_false_iff, decide_eq_false_iff_not]
        exact ⟨Nat.not_lt.mpr hs.1, Nat.not_lt.mpr hs.2⟩
      cases hu : tokenResponse.unmarshalBytes bb <;>
        simp [Login, sendRequest, hs, hb, hu, failedE]

theorem createSubscription_error (sub : SubscriptionRequest) (o : HttpResult) :
    (CreateSubscription sub o).error.isSome = (sendFailure o || tokenBodyBad o) := by
  cases o with
  | transportError m => rfl
  | readError m => rfl
  | response s bb =>
    simp only [sendFailure, envFailure, non2xx, tokenBodyBad, Bool.false_or]
    by_cases hs : s < 200 ∨ 299 < s
    · have hb : (decide (s < 200) || decide (299 < s)) = true := by
        rcases hs with h | h <;> simp [h]
      simp [CreateSubscription, sendRequest, hs, hb]
    · have hb : (decide (s < 200) || decide (299 < s)) = false := by
        push_neg at hs
        simp only [Bool.or_eq_false_iff, decide_eq_false_iff_not]
        exact ⟨Nat.not_lt.mpr hs.1, Nat.not_lt.mpr hs.2⟩
      cases hu : tokenResponse.unmarshalBytes bb <;>
        simp [CreateSubscription, sendRequest, hs, hb, hu, failedE]

theorem getData_error (m : Member) (o : HttpResult) :
    ((m.GetData o).2).error.isSome = (envFailure o || memberBodyBad o) := by
  cases o with
  | transportError msg => rfl
  | readError msg => rfl
  | response s bb =>
    simp only [Member.GetData, graphQL, envFailure, memberBodyBad,
      memberDataResponse.unmarshalBytes, Bool.false_or]
    cases hu : unmarshalBody memberDataResponse.unmarshal bb <;> simp [hu, failedE]

theorem updateSettings_error (m : Member) (sr : SettingsRequest) (o : HttpResult) :
    ((m.UpdateSettings sr o).2).error.isSome = sendFailure o := by
  have h := sendRequest_errorOut "POST" "/api/services/user?action=settings"
    (SettingsRequest.marshal { sr with token := m.Token }) o
  cases hs : sendRequest "POST" "/api/services/user?action=settings"
      (SettingsRequest.marshal { sr with token := m.Token }) o <;>
    (rw [hs] at h; simpa [Member.UpdateSettings, hs, SendOutcome.errorOut] using h)

theorem updateCreditCard_error (m : Member) (cr : CreditCardRequest) (o : HttpResult) :
    ((m.UpdateCreditCard cr o).2).error.isSome = sendFailure o := by
  have h := sendRequest_errorOut "POST" "/api/services/user?action=cc"
    (CreditCardRequest.marshal { cr with memberToken := m.Token }) o
  cases hs : sendRequest "POST" "/api/services/user?action=cc"
      (CreditCardRequest.marshal { cr with memberToken := m.Token }) o <;>
    (rw [hs] at h; simpa [Member.UpdateCreditCard, hs, SendOutcome.errorOut] using h)

theorem createPayment_error (pr : PaymentRequest) (o : HttpResult) :
    (CreatePayment pr o).error.isSome = sendFailure o := by
  have h := sendRequest_errorOut "POST" "/api/payments" (PaymentRequest.marshal pr) o
  cases hs : sendRequest "POST" "/api/payments" (PaymentRequest.marshal pr) o <;>
    (rw [hs] at h; simpa [CreatePayment, hs, SendOutcome.errorOut] using h)

theorem delete_error (m : Member) (o : HttpResult) :
    ((m.Delete o).2).error.isSome = sendFailure o := by
  have h := sendRequest_errorOut "DELETE" "/api/service/user"
    (.obj [("token", .str m.Token)]) o
  cases hs : sendRequest "DELETE" "/api/service/user"
      (.obj [("token", .str m.Token)]) o <;>
    (rw [hs] at h; simpa [Member.Delete, hs, SendOutcome.errorOut] using h)

theorem logout_error (m : Member) (o : HttpResult) :
    ((m.Logout o).2).error.isSome = sendFailure o := by
  have h := sendRequest_errorOut "POST" "/api/service/logout"
    (.obj [("public_key", .str m.PublicKey), ("token", .str m.Token)]) o
  cases hs : sendRequest "POST" "/api/service/logout"
      (.obj [("public_key", .str m.PublicKey), ("token", .str m.Token)]) o <;>
    (rw [hs] at h; simpa [Member.Logout, hs, SendOutcome.errorOut] using h)

end flexkit

namespace flexkitVariant

theorem variantSendRequest_request (kind path : String) (b : Json) (o : HttpResult) :
    (sendRequest kind path b o).request
      = ⟨kind, domain ++ path, "application/json", b, 5⟩ := by
  cases o with
  | transportError m => rfl
  | readError m => rfl
  | response s bb =>
    simp only [sendRequest]
    split <;> rfl

end flexkitVariant

namespace plasso

theorem new_request (tok : String) (o : HttpResult) :
    (New tok o).request
      = ⟨"POST", "https://api.plasso.com", "application/json",
         gqlQueryMarshal (template.replace "\x7b\x7b.token\x7d\x7d" tok), 1⟩ := by
  cases o with
  | transportError m => rfl
  | readError m => rfl
  | response s bb =>
    simp only [New]
    cases hu : unmarshalBody gqlResponse.unmarshal bb <;> simp [hu]

end plasso

/-!
Claim theorems.
-/

namespace flexkit

/-- C1 (amended): each flexkit operation returns a non-nil error
exactly under the conditions its own call sequence can hit.  The
sendRequest-based operations (Login, UpdateSettings, UpdateCreditCard,
CreatePayment, CreateSubscription, Delete, Logout) fail exactly when
the transport fails, the body cannot be read, or the status code is
outside 2xx, plus (for Login and CreateSubscription) when the 2xx body
does not unmarshal as a tokenResponse.  Member.GetData goes through
graphQL, which never inspects the status code: it fails exactly when
the transport fails, the body cannot be read, or the body does not
unmarshal as a memberDataResponse; a non-2xx status alone does not
produce an error there. -/
theorem operations_error_conditions (lr : LoginRequest) (m : Member)
    (sr : SettingsRequest) (cr : CreditCardRequest) (pr : PaymentRequest)
    (sub : SubscriptionRequest) (o : HttpResult) :
    (Login lr o).error.isSome = (sendFailure o || tokenBodyBad o)
  ∧ ((m.GetData o).2).error.isSome = (envFailure o || memberBodyBad o)
  ∧ ((m.UpdateSettings sr o).2).error.isSome = sendFailure o
  ∧ ((m.UpdateCreditCard cr o).2).error.isSome = sendFailure o
  ∧ (CreatePayment pr o).error.isSome = sendFailure o
  ∧ (CreateSubscription sub o).error.isSome = (sendFailure o || tokenBodyBad o)
  ∧ ((m.Delete o).2).error.isSome = sendFailure o
  ∧ ((m.Logout o).2).error.isSome = sendFailure o :=
  ⟨login_error lr o, getData_error m o, updateSettings_error m sr o,
   updateCreditCard_error m cr o, createPayment_error pr o,
   createSubscription_error sub o, delete_error m o, logout_error m o⟩

/-- C1 counterexample: a /graphql call answered with HTTP status 500
and the body null makes Member.GetData return a nil error and a
non-nil MemberData, refuting the claim that a non-2xx status code on
the /graphql call yields a non-nil error. -/
theorem getData_non2xx_no_error_counterexample :
    ((Member.mk "pk" "tok").GetData (.response 500 ⟨"null", some .null⟩)).2.error = none
  ∧ ((Member.mk "pk" "tok").GetData
      (.response 500 ⟨"null", some .null⟩)).2.value.isSome = true :=
  ⟨rfl, rfl⟩

/-- C3 (code evaluated at the failing input): the JSON bodies posted
by UpdateSettings and UpdateCreditCard never contain a pltoken field,
because the Go fields carrying the json pltoken tag are unexported and
encoding/json skips unexported fields; the member token is silently
dropped from every such request. -/
theorem update_requests_omit_pltoken (m : Member) (sr : SettingsRequest)
    (cr : CreditCardRequest) (o1 o2 : HttpResult) :
    ((m.UpdateSettings sr o1).2).request.body.lookupField "pltoken" = none
  ∧ ((m.UpdateSettings sr o1).2).request.body.keys
      = ["email", "name", "shipping_name", "shipping_address", "shipping_city",
         "shipping_state", "shipping_zip", "shipping_country", "shipping_options"]
  ∧ ((m.UpdateCreditCard cr o2).2).request.body.lookupField "pltoken" = none
  ∧ ((m.UpdateCreditCard cr o2).2).request.body.keys
      = ["cc_last_4", "cc_type", "plan", "token"] := by
  refine ⟨?_, ?_, ?_, ?_⟩
  · rw [updateSettings_request]; rfl
  · rw [updateSettings_request]; rfl
  · rw [updateCreditCard_request]; rfl
  · rw [updateCreditCard_request]; rfl

/-- C4 (confirmed): when the POST to /api/service/login is answered
with a 2xx status and a body whose tokenResponse decoding yields token
t, Login returns a nil error and a Member whose PublicKey is the
request PublicKey and whose Token is t. -/
theorem login_success_parses_token (r : LoginRequest) (status : Nat)
    (bb : BodyBytes) (t : String) (h2 : 200 ≤ status) (h3 : status ≤ 299)
    (hu : tokenResponse.unmarshalBytes bb = .ok ⟨t⟩) :
    (Login r (.response status bb)).value = some ⟨r.PublicKey, t⟩
  ∧ (Login r (.response status bb)).error = none := by
  have hs : ¬(status < 200 ∨ 299 < status) := by omega
  constructor <;> simp [Login, sendRequest, hs, hu]

/-- C4 witness: Login at a concrete 200 response carrying token tk. -/
theorem login_success_parses_token_witness :
    (Login ⟨"pk", "mike at plasso.com", "password"⟩
        (.response 200 ⟨"token body", some (.obj [("token", .str "tk")])⟩)).value
      = some ⟨"pk", "tk"⟩
  ∧ (Login ⟨"pk", "mike at plasso.com", "password"⟩
        (.response 200 ⟨"token body", some (.obj [("token", .str "tk")])⟩)).error
      = none :=
  login_success_parses_token ⟨"pk", "mike at plasso.com", "password"⟩ 200
    ⟨"token body", some (.obj [("token", .str "tk")])⟩ "tk"
    (by decide) (by decide) rfl

/-- C5 (confirmed): when the /graphql call completes and its body
decodes as a memberDataResponse, Member.GetData returns a nil error
and a MemberData whose fields are copied from the response: Id, Name,
Email, CreditCardLast4 from ccLast4, CreditCardType from ccType, the
six shipping fields from shippingInfo, DataFields from dataFields and
Plan from the plan alias (ShippingOptions keeps the zero value). -/
theorem getData_success_field_mapping (m : Member) (status : Nat)
    (bb : BodyBytes) (resp : memberDataResponse)
    (hu : memberDataResponse.unmarshalBytes bb = .ok resp) :
    ((m.GetData (.response status bb)).2).value
      = some ⟨resp.Data.Member.Id, resp.Data.Member.Email, resp.Data.Member.Name,
              resp.Data.Member.CcLast4, resp.Data.Member.CcType,
              resp.Data.Member.ShippingInfo.Name,
              resp.Data.Member.ShippingInfo.Address,
              resp.Data.Member.ShippingInfo.City,
              resp.Data.Member.ShippingInfo.State,
              resp.Data.Member.ShippingInfo.Zip,
              resp.Data.Member.ShippingInfo.Country,
              "", resp.Data.Member.DataFields, resp.Data.Member.Plan.Alias⟩
  ∧ ((m.GetData (.response status bb)).2).error = none := by
  have hu2 : unmarshalBody memberDataResponse.unmarshal bb = .ok resp := hu
  constructor <;> simp [Member.GetData, graphQL, hu2]

/-- C5 witness: GetData at a concrete fully-populated member body. -/
theorem getData_success_field_mapping_witness :
    (((Member.mk "pk" "tok").GetData (.response 200 sampleMemberBody)).2).value
      = some ⟨"m1", "ada at example.com", "Ada", "4242", "visa", "Ada L", "1 Way",
              "Springfield", "IL", "62704", "US", "", [⟨"f1", "v1"⟩], "gold"⟩
  ∧ (((Member.mk "pk" "tok").GetData (.response 200 sampleMemberBody)).2).error
      = none :=
  getData_success_field_mapping ⟨"pk", "tok"⟩ 200 sampleMemberBody sampleMemberResp rfl

/-- C6 (confirmed): Login posts to https://plasso.com/api/service/login,
CreatePayment to https://plasso.com/api/payments, CreateSubscription
to https://plasso.com/api/subscriptions and Member.GetData posts to
https://plasso.com/graphql; each request carries the header
Content-Type: application/json and its URL is the domain constant
concatenated with the path. -/
theorem request_endpoints_and_headers (lr : LoginRequest) (pr : PaymentRequest)
    (sub : SubscriptionRequest) (m : Member) (o1 o2 o3 o4 : HttpResult) :
    (Login lr o1).request.method = "POST"
  ∧ (Login lr o1).request.url = domain ++ "/api/service/login"
  ∧ (Login lr o1).request.url = "https://plasso.com/api/service/login"
  ∧ (Login lr o1).request.contentType = "application/json"
  ∧ (CreatePayment pr o2).request.method = "POST"
  ∧ (CreatePayment pr o2).request.url = domain ++ "/api/payments"
  ∧ (CreatePayment pr o2).request.url = "https://plasso.com/api/payments"
  ∧ (CreatePayment pr o2).request.contentType = "application/json"
  ∧ (CreateSubscription sub o3).request.method = "POST"
  ∧ (CreateSubscription sub o3).request.url = domain ++ "/api/subscriptions"
  ∧ (CreateSubscription sub o3).request.url = "https://plasso.com/api/subscriptions"
  ∧ (CreateSubscription sub o3).request.contentType = "application/json"
  ∧ ((m.GetData o4).2).request.method = "POST"
  ∧ ((m.GetData o4).2).request.url = domain ++ "/graphql"
  ∧ ((m.GetData o4).2).request.url = "https://plasso.com/graphql"
  ∧ ((m.GetData o4).2).request.contentType = "application/json" := by
  refine ⟨?_, ?_, ?_, ?_, ?_, ?_, ?_, ?_, ?_, ?_, ?_, ?_, ?_, ?_, ?_, ?_⟩ <;>
    first
      | (rw [login_request] <;> rfl)
      | (rw [createPayment_request] <;> rfl)
      | (rw [createSubscription_request] <;> rfl)
      | (rw [getData_request] <;> rfl)

/-- C8 (confirmed): CreateSubscription overwrites the SubscriptionFor
field with space before marshalling, so the posted JSON body carries
subscription_for with value space (as its first key) no matter what
the caller put in that field. -/
theorem createSubscription_forces_space (sub : SubscriptionRequest) (o : HttpResult) :
    (CreateSubscription sub o).request.body.lookupField "subscription_for"
      = some (.str "space")
  ∧ (CreateSubscription sub o).request.body.keys.head? = some "subscription_for" := by
  refine ⟨?_, ?_⟩ <;> rw [createSubscription_request] <;> rfl

/-- C9 (confirmed): none of the Member methods changes the receiver:
GetData, UpdateSettings, UpdateCreditCard, Delete and Logout all
return the Member with the same PublicKey and Token it had before the
call, on success and on error alike; the token assignments inside
UpdateSettings and UpdateCreditCard only touch the by-value parameter
copy. -/
theorem member_methods_preserve_receiver (m : Member) (sr : SettingsRequest)
    (cr : CreditCardRequest) (o1 o2 o3 o4 o5 : HttpResult) :
    (m.GetData o1).1 = m
  ∧ (m.UpdateSettings sr o2).1 = m
  ∧ (m.UpdateCreditCard cr o3).1 = m
  ∧ (m.Delete o4).1 = m
  ∧ (m.Logout o5).1 = m :=
  ⟨rfl, rfl, rfl, rfl, rfl⟩

/-- C10 (confirmed): for Login and CreateSubscription the error is nil
exactly when the returned Member pointer is non-nil: every outcome
yields exactly one meaningful result. -/
theorem result_error_exclusivity (lr : LoginRequest) (sub : SubscriptionRequest)
    (o1 o2 : HttpResult) :
    (Login lr o1).error.isNone = (Login lr o1).value.isSome
  ∧ (CreateSubscription sub o2).error.isNone
      = (CreateSubscription sub o2).value.isSome := by
  constructor
  · cases o1 with
    | transportError m => rfl
    | readError m => rfl
    | response s bb =>
      by_cases hs : s < 200 ∨ 299 < s
      · simp [Login, sendRequest, hs]
      · cases hu : tokenResponse.unmarshalBytes bb <;>
          simp [Login, sendRequest, hs, hu]
  · cases o2 with
    | transportError m => rfl
    | readError m => rfl
    | response s bb =>
      by_cases hs : s < 200 ∨ 299 < s
      · simp [CreateSubscription, sendRequest, hs]
      · cases hu : tokenResponse.unmarshalBytes bb <;>
          simp [CreateSubscription, sendRequest, hs, hu]

end flexkit

/-- C2 (amended): the flexkit sendRequest answers every response whose
status is outside 200..299 with a non-nil error whose message is the
method, the decimal status code, the full URL and the response body in
that order, separated by spaces; the variant sendRequest in
src/unnamed/part_000 instead treats every status in 200..300 as
success, so status 300 yields no error there, and only statuses
outside 200..300 produce the same formatted message. -/
theorem sendRequest_non2xx_error_message (kind path : String) (b : Json)
    (status : Nat) (bb : BodyBytes) (h : status < 200 ∨ 299 < status) :
    (flexkit.sendRequest kind path b (.response status bb)).errorOut
      = some (.statusError (kind ++ " " ++ toString status ++ " "
          ++ (flexkit.domain ++ path) ++ " " ++ bb.raw))
  ∧ (flexkitVariant.sendRequest kind path b (.response status bb)).errorOut
      = (if status < 200 ∨ 300 < status then
          some (.statusError (kind ++ " " ++ toString status ++ " "
            ++ (flexkitVariant.domain ++ path) ++ " " ++ bb.raw))
         else none) := by
  constructor
  · simp [flexkit.sendRequest, h, SendOutcome.errorOut]
  · by_cases h3 : status < 200 ∨ 300 < status
    · simp [flexkitVariant.sendRequest, h3, SendOutcome.errorOut]
    · simp [flexkitVariant.sendRequest, h3, SendOutcome.errorOut]

/-- C2 witness: at status 300 the flexkit sendRequest errors with the
formatted message while the variant sendRequest reports success. -/
theorem sendRequest_non2xx_error_message_witness :
    (flexkit.sendRequest "POST" "/api/subscriptions" (.obj [])
        (.response 300 ⟨"Multiple Choices", none⟩)).errorOut
      = some (.statusError "POST 300 https://plasso.com/api/subscriptions Multiple Choices")
  ∧ (flexkitVariant.sendRequest "POST" "/api/subscriptions" (.obj [])
        (.response 300 ⟨"Multiple Choices", none⟩)).errorOut
      = none := by
  have h := sendRequest_non2xx_error_message "POST" "/api/subscriptions" (.obj [])
    300 ⟨"Multiple Choices", none⟩ (by decide)
  exact ⟨h.1.trans (by decide), h.2.trans (by decide)⟩

/-- C2 counterexample: status 300 is outside the 2xx range, yet the
variant sendRequest of src/unnamed/part_000 returns a nil error for
it, refuting the claim for that function. -/
theorem variantSendRequest_status300_counterexample :
    (flexkitVariant.sendRequest "POST" "/api/payments" (.obj [])
      (.response 300 ⟨"Multiple Choices", none⟩)).errorOut = none := rfl

/-- C7 (confirmed): every operation configures its own HTTP client
with a fixed timeout: 30 seconds for every flexkit sendRequest caller,
15 seconds in graphQL (hence GetData), 5 seconds in the variant
sendRequest and 1 second in the plasso New constructor; each of these
values lies between 1 and 30 seconds inclusive. -/
theorem client_timeouts_within_bounds (lr : flexkit.LoginRequest)
    (m : flexkit.Member) (sr : flexkit.SettingsRequest)
    (cr : flexkit.CreditCardRequest) (pr : flexkit.PaymentRequest)
    (sub : flexkit.SubscriptionRequest) (kind path : String) (b : Json)
    (tok : String) (o : HttpResult) :
    (flexkit.Login lr o).request.timeoutSeconds = 30
  ∧ ((m.GetData o).2).request.timeoutSeconds = 15
  ∧ ((m.UpdateSettings sr o).2).request.timeoutSeconds = 30
  ∧ ((m.UpdateCreditCard cr o).2).request.timeoutSeconds = 30
  ∧ (flexkit.CreatePayment pr o).request.timeoutSeconds = 30
  ∧ (flexkit.CreateSubscription sub o).request.timeoutSeconds = 30
  ∧ ((m.Delete o).2).request.timeoutSeconds = 30
  ∧ ((m.Logout o).2).request.timeoutSeconds = 30
  ∧ (flexkitVariant.sendRequest kind path b o).request.timeoutSeconds = 5
  ∧ (plasso.New tok o).request.timeoutSeconds = 1
  ∧ 1 ≤ (plasso.New tok o).request.timeoutSeconds
  ∧ (plasso.New tok o).request.timeoutSeconds ≤ 30
  ∧ 1 ≤ (flexkitVariant.sendRequest kind path b o).request.timeoutSeconds
  ∧ (flexkitVariant.sendRequest kind path b o).request.timeoutSeconds ≤ 30
  ∧ 1 ≤ ((m.GetData o).2).request.timeoutSeconds
  ∧ ((m.GetData o).2).request.timeoutSeconds ≤ 30
  ∧ 1 ≤ (flexkit.Login lr o).request.timeoutSeconds
  ∧ (flexkit.Login lr o).request.timeoutSeconds ≤ 30 := by
  refine ⟨?_, ?_, ?_, ?_, ?_, ?_, ?_, ?_, ?_, ?_, ?_, ?_, ?_, ?_, ?_, ?_, ?_, ?_⟩
  · rw [flexkit.login_request]
  · rw [flexkit.getData_request]
  · rw [flexkit.updateSettings_request]
  · rw [flexkit.updateCreditCard_request]
  · rw [flexkit.createPayment_request]
  · rw [flexkit.createSubscription_request]
  · rw [flexkit.delete_request]
  · rw [flexkit.logout_request]
  · rw [flexkitVariant.variantSendRequest_request]
  · rw [plasso.new_request]
  · rw [plasso.new_request]
  · rw [plasso.new_request]; norm_num
  · rw [flexkitVariant.variantSendRequest_request]; norm_num
  · rw [flexkitVariant.variantSendRequest_request]; norm_num
  · rw [flexkit.getData_request]; norm_num
  · rw [flexkit.getData_request]; norm_num
  · rw [flexkit.login_request]; norm_num
  · rw [flexkit.login_request]
